import Mathlib

/-!
Shallow embedding of the opula agent runtime (Python sources under
`src/agents/src`) and proofs about the behaviour its specification claims.

The embedding covers:
* `BaseAgent.execute_action` (src/agents/src/core/base_agent.py, lines 184-251),
* the incident-response components `AlertCorrelator`, `RunbookExecutor` and
  `EscalationManager` (src/agents/src/agents/incident_response_agent.py),
* `HealthMonitor.perform_health_check` (src/agents/src/core/health_monitor.py).

Machine conventions: timestamps and durations are integers (seconds);
floating-point averages and fractions are rationals; Python dictionaries whose
keys are fixed in the code become structures with `Option` fields; external
collaborators (the audit service, the simulated remediation command capability)
are modelled as parameters where the code itself delegates to them.
-/

namespace Opula

/-! ### Data model (src/agents/src/core/interfaces.py) -/

/-- `ActionStatus` enum (interfaces.py lines 46-53). -/
inductive ActionStatus where
  | pending
  | approved
  | executing
  | completed
  | failed
  | cancelled
deriving DecidableEq, Repr

/-- `AgentStatus` enum (interfaces.py lines 56-61). -/
inductive AgentStatus where
  | healthy
  | degraded
  | unhealthy
  | offline
deriving DecidableEq, Repr

/-- `ActionResult` model (interfaces.py lines 104-110); `data` is opaque and
omitted, `execution_time` is a rational number of seconds. -/
structure ActionResult where
  success : Bool
  message : String
  error : Option String := none
  execution_time : Option ℚ := none
deriving DecidableEq, Repr

/-- The metrics dictionary initialised in `BaseAgent.__init__`
(base_agent.py lines 51-57); `events_processed` is untouched by
`execute_action` and omitted. -/
structure Metrics where
  actions_executed : ℕ
  actions_successful : ℕ
  actions_failed : ℕ
  avg_execution_time : ℚ
deriving DecidableEq, Repr

/-! ### `BaseAgent.execute_action` (base_agent.py lines 184-251)

The agent-specific executor `_execute_action_specific` is abstract in
`BaseAgent`; its outcome is a parameter: either an exception (`Except.error`
with the message) or an `ActionResult`.  The measured wall-clock execution
time `sample` is likewise a parameter.  The audit service is an external
collaborator (interfaces.py `AuditInterface`); its calls are recorded in a
counter.  The function returns the produced `ActionResult`, the final
status, the status-assignment trace (initial status followed by every value
assigned to `action.status`), the updated metrics and the number of
`audit_service.log_action` calls made. -/

/-- State observed by one `execute_action` call: the running flag and whether a
config is loaded (the `if not self.is_running or not self.config` check at
line 191), and the outcome of `_execute_action_specific`. -/
structure ExecEnv where
  is_running : Bool
  has_config : Bool
  specific : Except String ActionResult
deriving Repr

/-- Result of one `execute_action` call in the embedding. -/
structure ExecOutcome where
  result : ActionResult
  finalStatus : ActionStatus
  trace : List ActionStatus
  metrics : Metrics
  auditLogs : ℕ
  errorCountDelta : ℕ
deriving DecidableEq, Repr

/-- The running-average update at base_agent.py lines 212-217:
`(current_avg * (total_actions - 1) + execution_time) / total_actions`. -/
def updatedAvg (currentAvg : ℚ) (totalActions : ℕ) (sample : ℚ) : ℚ :=
  (currentAvg * ((totalActions : ℚ) - 1) + sample) / (totalActions : ℚ)

/-- Shallow embedding of `BaseAgent.execute_action` (base_agent.py 184-251).
`s0` is the status of the action on entry, `m` the metrics before the call and
`sample` the measured execution time. -/
def execute_action (env : ExecEnv) (s0 : ActionStatus) (m : Metrics)
    (sample : ℚ) : ExecOutcome :=
  if env.is_running && env.has_config then
    -- line 195: action.status = EXECUTING
    match env.specific with
    | Except.ok result =>
        let executed := m.actions_executed + 1
        let status := if result.success then ActionStatus.completed
          else ActionStatus.failed
        let m2 : Metrics :=
          { actions_executed := executed
            actions_successful :=
              m.actions_successful + (if result.success then 1 else 0)
            actions_failed := m.actions_failed + (if result.success then 0 else 1)
            avg_execution_time := updatedAvg m.avg_execution_time executed sample }
        { result := { result with execution_time := some sample }
          finalStatus := status
          trace := [s0, ActionStatus.executing, status]
          metrics := m2
          auditLogs := 1
          errorCountDelta := 0 }
    | Except.error msg =>
        -- exception raised inside the try block after EXECUTING was set
        { result := { success := false, message := "Action execution failed"
                      error := some msg, execution_time := some sample }
          finalStatus := ActionStatus.failed
          trace := [s0, ActionStatus.executing, ActionStatus.failed]
          metrics := { m with
            actions_executed := m.actions_executed + 1
            actions_failed := m.actions_failed + 1 }
          auditLogs := 1
          errorCountDelta := 1 }
  else
    -- line 192: raise RuntimeError("Agent not active"), before EXECUTING is set
    { result := { success := false, message := "Action execution failed"
                  error := some "Agent not active", execution_time := some sample }
      finalStatus := ActionStatus.failed
      trace := [s0, ActionStatus.failed]
      metrics := { m with
        actions_executed := m.actions_executed + 1
        actions_failed := m.actions_failed + 1 }
      auditLogs := 1
      errorCountDelta := 1 }

/-- The transition relation the specification declares for action status:
`PENDING → EXECUTING → {COMPLETED | FAILED}`. -/
def specTransition : ActionStatus → ActionStatus → Bool
  | ActionStatus.pending, ActionStatus.executing => true
  | ActionStatus.executing, ActionStatus.completed => true
  | ActionStatus.executing, ActionStatus.failed => true
  | _, _ => false

/-- Consecutive pairs of a list. -/
def pairs : List ActionStatus → List (ActionStatus × ActionStatus)
  | [] => []
  | [_] => []
  | a :: b :: rest => (a, b) :: pairs (b :: rest)

/-- `noCompletedAfterFailed l` holds when no `completed` entry occurs anywhere
after a `failed` entry in `l`. -/
def noCompletedAfterFailed : List ActionStatus → Bool
  | [] => true
  | ActionStatus.failed :: rest =>
      !rest.contains ActionStatus.completed && noCompletedAfterFailed rest
  | _ :: rest => noCompletedAfterFailed rest

/-! ### Incident-response data model
(src/agents/src/agents/incident_response_agent.py lines 39-84) -/

/-- `Alert` dataclass (incident_response_agent.py lines 39-50).  `labels` is an
association list standing for the Python dict; `metrics` and `raw_data` are
opaque to every function modelled here and omitted. -/
structure Alert where
  id : String
  source : String
  severity : String
  title : String
  description : String
  timestamp : ℤ
  labels : List (String × String)
deriving DecidableEq, Repr

/-- One notification produced by
`EscalationManager._send_escalation_notifications`
(incident_response_agent.py lines 837-866). -/
structure EscalationNotification where
  channel : String
  sent_at : ℤ
  success : Bool
  message : String
deriving DecidableEq, Repr

/-- The escalation-result dict built by `EscalationManager.escalate_incident`
(incident_response_agent.py lines 804-827). -/
structure EscalationResult where
  incident_id : String
  escalated_at : ℤ
  reason : String
  notifications_sent : List EscalationNotification
  success : Bool
deriving DecidableEq, Repr

/-- The keys written into `Incident.metadata` by the code; a missing key is
`none`.  `alert_count` and `sources` are set by
`AlertCorrelator._create_incident_from_alerts`; `escalation_reason` and
`escalated_at` by `EscalationManager.escalate_incident`; `escalation_result`
by `IncidentResponseAgent._check_incidents_for_escalation`. -/
structure IncidentMetadata where
  alert_count : Option ℕ := none
  sources : Option (List String) := none
  escalation_reason : Option String := none
  escalated_at : Option ℤ := none
  escalation_result : Option EscalationResult := none
deriving DecidableEq, Repr

/-- `Incident` dataclass (incident_response_agent.py lines 53-69). -/
structure Incident where
  id : String
  title : String
  description : String
  severity : String
  status : String
  affected_resources : List String
  alerts : List Alert
  detected_at : ℤ
  resolved_at : Option ℤ
  resolution_steps : List String
  automated_resolution : Bool
  escalated : Bool
  root_cause : Option String
  metadata : IncidentMetadata
deriving DecidableEq, Repr

/-! ### `AlertCorrelator` (incident_response_agent.py lines 87-283) -/

/-- The default correlation window, `timedelta(minutes=15)` at line 91,
in seconds. -/
def correlationWindow : ℤ := 900

/-- Stable insertion of an alert into a timestamp-sorted list, modelling the
stable `sorted(alerts, key=lambda a: a.timestamp)` at line 121. -/
def insertByTs (a : Alert) : List Alert → List Alert
  | [] => [a]
  | b :: rest =>
      if a.timestamp ≤ b.timestamp then a :: b :: rest else b :: insertByTs a rest

/-- Stable sort of alerts by timestamp (line 121). -/
def sortAlerts (l : List Alert) : List Alert := l.foldr insertByTs []

/-- The loop of `AlertCorrelator._group_alerts_by_time`
(incident_response_agent.py lines 127-142): `winStart` is
`current_window_start`, `cur` is `current_group`, `groups` accumulates
finished groups. -/
def groupLoop (window : ℤ) (winStart : ℤ) (cur : List Alert)
    (groups : List (List Alert)) : List Alert → List (List Alert)
  | [] => groups ++ [cur]
  | a :: rest =>
      if a.timestamp - winStart ≤ window then
        groupLoop window winStart (cur ++ [a]) groups rest
      else
        groupLoop window a.timestamp [a] (groups ++ [cur]) rest

/-- `AlertCorrelator._group_alerts_by_time` (incident_response_agent.py lines
118-144): sort by timestamp, then partition greedily against the start of the
current group.  An empty input yields no groups (the loop never runs and the
empty `current_group` is not appended). -/
def group_alerts_by_time (window : ℤ) (alerts : List Alert) :
    List (List Alert) :=
  match sortAlerts alerts with
  | [] => []
  | a :: rest => groupLoop window a.timestamp [a] [] rest

/-- Specification-shaped grouping: each group consists of its head together
with the following alerts whose timestamp is within `window` of the head
timestamp; the next group starts at the first alert beyond that window. -/
def groupsOf (window : ℤ) : List Alert → List (List Alert)
  | [] => []
  | a :: rest =>
      (a :: rest.takeWhile fun b => decide (b.timestamp - a.timestamp ≤ window)) ::
        groupsOf window
          (rest.dropWhile fun b => decide (b.timestamp - a.timestamp ≤ window))
termination_by l => l.length
decreasing_by
  simp only [List.length_cons]
  exact Nat.lt_succ_of_le (List.dropWhile_sublist _).length_le

/-- The severity ranking `{"low": 1, "medium": 2, "high": 3, "critical": 4}`
with `.get(..., 1)` default, as used at incident_response_agent.py lines
233-234 (and 204-205). -/
def severityRank (s : String) : ℕ :=
  let l := s.toLower
  if l = "low" then 1
  else if l = "medium" then 2
  else if l = "high" then 3
  else if l = "critical" then 4
  else 1

/-- Python `max(alerts, key=...)` over a nonempty list: the first element
attaining the maximal severity rank (incident_response_agent.py line 234). -/
def maxBySeverity (a : Alert) (rest : List Alert) : Alert :=
  rest.foldl
    (fun best b =>
      if severityRank best.severity < severityRank b.severity then b else best) a

/-- Python `min(alert.timestamp for alert in alerts)` over a nonempty list
(incident_response_agent.py line 273). -/
def minTimestamp (a : Alert) (rest : List Alert) : ℤ :=
  rest.foldl (fun m b => min m b.timestamp) a.timestamp

/-- The `resource`/`service` label values contributed by one alert
(incident_response_agent.py lines 254-258). -/
def alertResources (al : Alert) : List String :=
  (match al.labels.lookup "resource" with | some r => [r] | none => []) ++
    (match al.labels.lookup "service" with | some s => [s] | none => [])

/-- The deduplicated affected-resource list, `list(set(...))` at line 260.
Python set order is unspecified; `List.dedup` is the deterministic model. -/
def affectedResourcesOf (alerts : List Alert) : List String :=
  (alerts.flatMap alertResources).dedup

/-- The deduplicated source list `list(set(alert.source for alert in alerts))`
(incident_response_agent.py line 242); Python set order is unspecified,
`List.dedup` is the deterministic model. -/
def sourcesOf (alerts : List Alert) : List String :=
  (alerts.map fun al => al.source).dedup

/-- `AlertCorrelator._create_incident_from_alerts` (incident_response_agent.py
lines 230-283).  `none` models the `ValueError` Python `max`/`min` raise on an
empty list.  The Python incident id embeds the current UTC timestamp and a
hash of the title; only the timestamp part is modelled (`now`), the id is
opaque to every property proved here. -/
def create_incident_from_alerts (now : ℤ) : List Alert → Option Incident
  | [] => none
  | a :: rest =>
    let alerts := a :: rest
    let maxSev := maxBySeverity a rest
    let sources := sourcesOf alerts
    let title :=
      if alerts.length == 1 then a.title
      else
        "Multiple alerts from " ++ String.intercalate ", " (sources.take 3) ++
          (if 3 < sources.length then
            " and " ++ toString (sources.length - 3) ++ " more sources"
          else "")
    let description :=
      if alerts.length == 1 then a.description
      else
        "Correlated incident from " ++ toString alerts.length ++ " alerts: " ++
          String.intercalate "; "
            ((alerts.take 3).map fun al => al.source ++ ": " ++ al.title) ++
          (if 3 < alerts.length then
            " and " ++ toString (alerts.length - 3) ++ " more alerts"
          else "")
    some
      { id := "incident_" ++ toString now
        title := title
        description := description
        severity := maxSev.severity
        status := "open"
        affected_resources := affectedResourcesOf alerts
        alerts := alerts
        detected_at := minTimestamp a rest
        resolved_at := none
        resolution_steps := []
        automated_resolution := false
        escalated := false
        root_cause := none
        metadata :=
          { alert_count := some alerts.length, sources := some sources } }

/-! ### `RunbookExecutor` (incident_response_agent.py lines 418-740) -/

/-- One runbook step: the dict shape used throughout the static catalog
(incident_response_agent.py lines 432-576); `critical` mirrors
`step.get("critical", False)` at line 626. -/
structure Step where
  type : String
  description : String
  command : String
  timeout : ℕ
  critical : Bool := false
deriving DecidableEq, Repr

/-- `Runbook` dataclass (incident_response_agent.py lines 72-84). -/
structure Runbook where
  id : String
  name : String
  description : String
  incident_patterns : List String
  steps : List Step
  success_criteria : List String
  rollback_steps : List Step
  risk_level : String
  estimated_duration : ℕ
  success_rate : ℚ
deriving DecidableEq, Repr

/-- The observable part of a step-result dict built by
`RunbookExecutor._execute_step` (incident_response_agent.py lines 661-707). -/
structure StepResult where
  step_type : String
  description : String
  success : Bool
deriving DecidableEq, Repr

/-- The execution-result dict of `RunbookExecutor.execute_runbook`
(incident_response_agent.py lines 602-612).  `rollback_steps = none` models
the `"rollback_steps"` key being absent from the dict; `_perform_rollback`
adds it.  Start and end times are opaque to every property proved here and
omitted. -/
structure RunbookExecutionResult where
  execution_id : String
  runbook_id : String
  incident_id : String
  success : Bool
  steps_executed : List StepResult
  error : Option String
  rollback_performed : Bool
  rollback_steps : Option (List StepResult)
deriving DecidableEq, Repr

/-- `RunbookExecutor._execute_step` (incident_response_agent.py lines
661-707): it substitutes `{key}` placeholders into the command template and
delegates to the remediation command capability, which the specification
treats as an external collaborator; the success outcome of that capability is
the parameter `runStep`. -/
def executeStep (runStep : Step → Bool) (s : Step) : StepResult :=
  { step_type := s.type, description := s.description, success := runStep s }

/-- `RunbookExecutor._perform_rollback` (incident_response_agent.py lines
709-721): returns immediately when the runbook declares no rollback steps,
otherwise executes every rollback step and records the results under the
`rollback_steps` key. -/
def perform_rollback (runStep : Step → Bool) (rb : Runbook)
    (res : RunbookExecutionResult) : RunbookExecutionResult :=
  if rb.rollback_steps.isEmpty then res
  else
    { res with
      rollback_steps := some (rb.rollback_steps.map (executeStep runStep)) }

/-- The step loop of `RunbookExecutor.execute_runbook`
(incident_response_agent.py lines 618-633): returns the recorded step results
and whether a failing critical step stopped the loop (triggering rollback).
A failing non-critical step is logged and the loop continues. -/
def runSteps (runStep : Step → Bool) (acc : List StepResult) :
    List Step → List StepResult × Bool
  | [] => (acc, false)
  | s :: rest =>
      let r := executeStep runStep s
      if r.success then runSteps runStep (acc ++ [r]) rest
      else if s.critical then (acc ++ [r], true)
      else runSteps runStep (acc ++ [r]) rest

/-- Case-insensitive substring test over character lists. -/
def hasSubstr (pat : List Char) : List Char → Bool
  | [] => pat.isEmpty
  | c :: rest => pat.isPrefixOf (c :: rest) || hasSubstr pat rest

/-- Whether one success-criteria string matches the keyword heuristic of
`RunbookExecutor._check_success_criteria` (incident_response_agent.py lines
729-736): the lower-cased string contains `running`/`ready`, or else
`latency`/`usage`, or else `error`/`logs`. -/
def criterionMatches (c : String) : Bool :=
  let l := c.data.map Char.toLower
  if hasSubstr "running".data l || hasSubstr "ready".data l then true
  else if hasSubstr "latency".data l || hasSubstr "usage".data l then true
  else if hasSubstr "error".data l || hasSubstr "logs".data l then true
  else false

/-- `RunbookExecutor._check_success_criteria` (incident_response_agent.py
lines 723-740).  The Python method also receives the incident and the
execution context but reads only `runbook.success_criteria`.  The matched
fraction must reach 0.7; an empty criteria list counts as 1.0. -/
def check_success_criteria (criteria : List String) : Bool :=
  let successCount := criteria.countP criterionMatches
  let successRate : ℚ :=
    if criteria.isEmpty then 1 else (successCount : ℚ) / (criteria.length : ℚ)
  decide ((7 : ℚ) / 10 ≤ successRate)

/-- `RunbookExecutor.execute_runbook` (incident_response_agent.py lines
597-659): run the steps in order; on a failing critical step perform rollback,
set `rollback_performed` and stop; afterwards derive overall success from the
success criteria alone. -/
def execute_runbook (runStep : Step → Bool) (rb : Runbook)
    (incidentId : String) (executionId : String) : RunbookExecutionResult :=
  let init : RunbookExecutionResult :=
    { execution_id := executionId
      runbook_id := rb.id
      incident_id := incidentId
      success := false
      steps_executed := []
      error := none
      rollback_performed := false
      rollback_steps := none }
  let stepRes := runSteps runStep [] rb.steps
  let res1 := { init with steps_executed := stepRes.1 }
  let res2 :=
    if stepRes.2 then
      { perform_rollback runStep rb res1 with rollback_performed := true }
    else res1
  { res2 with success := check_success_criteria rb.success_criteria }

/-! ### `EscalationManager` (incident_response_agent.py lines 743-866) -/

/-- `EscalationManager._incident_duration` (incident_response_agent.py lines
783-788): seconds since detection, or until resolution when resolved. -/
def incident_duration (now : ℤ) (inc : Incident) : ℤ :=
  match inc.resolved_at with
  | some r => r - inc.detected_at
  | none => now - inc.detected_at

/-- `EscalationManager.should_escalate` (incident_response_agent.py lines
790-802) over the default rule list of `_initialize_escalation_rules` (lines
754-781): the first rule whose condition holds and whose delay has elapsed
wins; otherwise `(false, "")`. -/
def should_escalate (now : ℤ) (inc : Incident) : Bool × String :=
  let age := incident_duration now inc
  if inc.severity == "critical" && age ≥ 0 then
    (true, "Critical Incident Immediate Escalation")
  else if inc.severity == "high" && age ≥ 300 then
    (true, "High Severity Escalation")
  else if (!inc.automated_resolution && inc.status == "open") && age ≥ 900 then
    (true, "Failed Automation Escalation")
  else if 1800 < age && age ≥ 0 then
    (true, "Long Running Incident")
  else (false, "")

/-- The fixed notification channel list of
`EscalationManager._send_escalation_notifications`
(incident_response_agent.py line 842). -/
def notificationChannels : List String := ["slack", "email", "pagerduty"]

/-- `EscalationManager._send_escalation_notifications`
(incident_response_agent.py lines 837-866): one notification per channel; the
body of the per-channel `try` only builds the dict and logs, so every
notification is recorded with `success=True`. -/
def send_escalation_notifications (inc : Incident) (reason : String)
    (now : ℤ) : List EscalationNotification :=
  notificationChannels.map fun channel =>
    { channel := channel
      sent_at := now
      success := true
      message := "Incident " ++ inc.id ++ " escalated: " ++ reason }

/-- `EscalationManager.escalate_incident` (incident_response_agent.py lines
804-835): marks the incident escalated, attaches the reason and timestamp to
its metadata, sends the notifications, and reports success when the
notification list is nonempty.  Returns the mutated incident together with
the escalation result. -/
def escalate_incident (inc : Incident) (reason : String) (now : ℤ) :
    Incident × EscalationResult :=
  let inc2 :=
    { inc with
      escalated := true
      metadata :=
        { inc.metadata with
          escalation_reason := some reason
          escalated_at := some now } }
  let notifications := send_escalation_notifications inc reason now
  (inc2,
    { incident_id := inc.id
      escalated_at := now
      reason := reason
      notifications_sent := notifications
      success := decide (0 < notifications.length) })

/-- The per-incident body of
`IncidentResponseAgent._check_incidents_for_escalation`
(incident_response_agent.py lines 1312-1327): an already-escalated incident is
skipped; otherwise the rule engine runs and, when it fires, the incident is
escalated and the escalation result stored in its metadata. -/
def check_incident_for_escalation (now : ℤ) (inc : Incident) : Incident :=
  if inc.escalated then inc
  else
    let se := should_escalate now inc
    if se.1 then
      let esc := escalate_incident inc se.2 now
      { esc.1 with
        metadata := { esc.1.metadata with escalation_result := some esc.2 } }
    else inc

/-- `IncidentResponseAgent._check_incidents_for_escalation` over the active
incident list. -/
def check_incidents_for_escalation (now : ℤ) (incs : List Incident) :
    List Incident :=
  incs.map (check_incident_for_escalation now)

/-! ### `HealthMonitor.perform_health_check`
(src/agents/src/core/health_monitor.py lines 72-113) -/

/-- The observable part of a `HealthCheckResult`
(health_monitor.py lines 13-18); the metrics map is opaque here. -/
structure HealthCheckResult where
  passed : Bool
  message : String
deriving DecidableEq, Repr

/-- The check-running loop of `HealthMonitor.perform_health_check`
(health_monitor.py lines 79-91): each registered check either returns a result
or raises; a raised exception is converted into a failed result rather than
aborting the batch. -/
def collectCheckResults (outcomes : List (Except String HealthCheckResult)) :
    List HealthCheckResult :=
  outcomes.map fun o =>
    match o with
    | Except.ok r => r
    | Except.error e => { passed := false, message := "Check failed: " ++ e }

/-- The overall-status derivation of `HealthMonitor.perform_health_check`
(health_monitor.py lines 93-103): offline when no checks ran, healthy when
none failed, degraded when the failed count is at most `len // 2`, else
unhealthy. -/
def derive_health_status (results : List HealthCheckResult) : AgentStatus :=
  let failed := results.filter fun r => !r.passed
  if results.length = 0 then AgentStatus.offline
  else if failed.length = 0 then AgentStatus.healthy
  else if failed.length ≤ results.length / 2 then AgentStatus.degraded
  else AgentStatus.unhealthy

/-- `HealthMonitor.perform_health_check`, restricted to the overall status it
derives from the registered check outcomes. -/
def perform_health_check (outcomes : List (Except String HealthCheckResult)) :
    AgentStatus :=
  derive_health_status (collectCheckResults outcomes)

/-! ### Auxiliary definitions used by the statements -/

/-- The transition set the amended status claim allows: the specified
transitions plus the direct `PENDING → FAILED` step taken when the
precondition check at base_agent.py line 191 raises before `EXECUTING` is
assigned. -/
def amendedTransition (s t : ActionStatus) : Bool :=
  specTransition s t ||
    (s == ActionStatus.pending && t == ActionStatus.failed)

/-- Whether an `execute_action` call runs its try block to completion: the
agent is active and the agent-specific executor returns instead of raising. -/
def execOk (env : ExecEnv) : Bool :=
  env.is_running && env.has_config &&
    (match env.specific with
     | Except.ok _ => true
     | Except.error _ => false)

/-- A minimal alert used for concrete instances. -/
def sampleAlert (i : String) (ts : ℤ) : Alert :=
  { id := i, source := "prometheus", severity := "high", title := "t"
    description := "d", timestamp := ts, labels := [] }

/-- A minimal open incident used for concrete instances. -/
def sampleIncident : Incident :=
  { id := "inc1", title := "t", description := "d", severity := "low"
    status := "open", affected_resources := [], alerts := []
    detected_at := 0, resolved_at := none, resolution_steps := []
    automated_resolution := false, escalated := false, root_cause := none
    metadata := {} }

/-- `sampleIncident` already escalated. -/
def escalatedIncident : Incident :=
  { sampleIncident with escalated := true }

/-- A runbook with one critical step whose success criteria all match the
keyword heuristic (the criteria strings are those of the catalog runbook
`high_latency_basic`, incident_response_agent.py lines 523-527); the catalog
runbooks carry no `critical` flag, so a critical step is added here to
exercise the critical-failure path. -/
def criticalDemoRunbook : Runbook :=
  { id := "demo_critical"
    name := "Demo"
    description := "Critical-step runbook for concrete instances"
    incident_patterns := ["high_latency"]
    steps :=
      [{ type := "scale_up", description := "Scale up the service"
         command := "kubectl scale deployment/{service_name} --replicas={target_replicas}"
         timeout := 180, critical := true }]
    success_criteria :=
      ["Average latency below threshold", "All pods are ready",
       "CPU usage normalized"]
    rollback_steps := []
    risk_level := "low"
    estimated_duration := 5
    success_rate := 9 / 10 }

/-! ### Theorems -/

/-- C1 (counterexample): the claimed strict state machine
`PENDING → EXECUTING → {COMPLETED | FAILED}` is violated by the code: when the
agent is not running, `execute_action` raises before `EXECUTING` is assigned
and the except handler moves the action directly from `PENDING` to `FAILED`. -/
theorem c1_status_machine_counterexample :
    ¬ ∀ p ∈ pairs (execute_action
        { is_running := false, has_config := true
          specific := Except.ok { success := true, message := "" } }
        ActionStatus.pending
        { actions_executed := 0, actions_successful := 0, actions_failed := 0
          avg_execution_time := 0 } 1).trace,
      specTransition p.1 p.2 = true := by
  decide

/-- C1 (amended): every status transition performed by `execute_action`
starting from `PENDING` is one of `PENDING → EXECUTING`,
`EXECUTING → COMPLETED`, `EXECUTING → FAILED`, or the direct
`PENDING → FAILED` taken only when the agent is inactive; a `FAILED` status is
never later `COMPLETED`. -/
theorem c1_status_machine_amended (env : ExecEnv) (m : Metrics) (sample : ℚ) :
    (∀ p ∈ pairs (execute_action env ActionStatus.pending m sample).trace,
        amendedTransition p.1 p.2 = true) ∧
    noCompletedAfterFailed
        (execute_action env ActionStatus.pending m sample).trace = true ∧
    ((ActionStatus.pending, ActionStatus.failed) ∈
        pairs (execute_action env ActionStatus.pending m sample).trace →
      (env.is_running && env.has_config) = false) := by
  rcases env with ⟨r, c, sp⟩
  by_cases hrc : (r && c) = true
  · cases sp with
    | ok result =>
        cases hres : result.success <;>
          simp [execute_action, hrc, hres, pairs, amendedTransition,
            specTransition, noCompletedAfterFailed]
    | error msg =>
        simp [execute_action, hrc, pairs, amendedTransition, specTransition,
          noCompletedAfterFailed]
  · have hrc2 : (r && c) = false := by
      cases hb : (r && c) <;> simp_all
    simp [execute_action, hrc2, pairs, amendedTransition, specTransition,
      noCompletedAfterFailed]

/-- C1 (witness for the amended theorem): on an inactive agent the direct
`PENDING → FAILED` transition occurs and the precondition is indeed false. -/
theorem c1_status_machine_amended_witness :
    ((ActionStatus.pending, ActionStatus.failed) ∈
      pairs (execute_action
        { is_running := false, has_config := true
          specific := Except.ok { success := true, message := "" } }
        ActionStatus.pending
        { actions_executed := 0, actions_successful := 0, actions_failed := 0
          avg_execution_time := 0 } 1).trace) ∧
    (false && true) = false :=
  ⟨by decide,
    (c1_status_machine_amended
      { is_running := false, has_config := true
        specific := Except.ok { success := true, message := "" } }
      { actions_executed := 0, actions_successful := 0, actions_failed := 0
        avg_execution_time := 0 } 1).2.2 (by decide)⟩

/-- C3: `execute_action` is total in the embedding — every call, including the
precondition-failure path and a raising agent-specific executor, returns an
`ActionResult`; an internal exception yields a result with `success = false`
carrying the error string and leaves the action `FAILED`; and every call logs
the action and result through the audit service exactly once. -/
theorem c3_execute_action_error_handling (env : ExecEnv) (s0 : ActionStatus)
    (m : Metrics) (sample : ℚ) :
    (execute_action env s0 m sample).auditLogs = 1 ∧
    ((env.is_running && env.has_config) = false →
      (execute_action env s0 m sample).result.success = false ∧
      (execute_action env s0 m sample).result.error = some "Agent not active" ∧
      (execute_action env s0 m sample).finalStatus = ActionStatus.failed) ∧
    (∀ msg, (env.is_running && env.has_config) = true →
      env.specific = Except.error msg →
      (execute_action env s0 m sample).result.success = false ∧
      (execute_action env s0 m sample).result.error = some msg ∧
      (execute_action env s0 m sample).finalStatus = ActionStatus.failed) := by
  rcases env with ⟨r, c, sp⟩
  by_cases hrc : (r && c) = true
  · cases sp with
    | ok result =>
        refine ⟨?_, ?_, ?_⟩
        · simp [execute_action, hrc]
        · intro h; rw [h] at hrc; exact absurd hrc (by simp)
        · intro msg _ h; exact absurd h (by simp)
    | error msg =>
        refine ⟨?_, ?_, ?_⟩
        · simp [execute_action, hrc]
        · intro h; rw [h] at hrc; exact absurd hrc (by simp)
        · intro m2 _ h
          have : msg = m2 := by injection h
          subst this
          simp [execute_action, hrc]
  · have hrc2 : (r && c) = false := by
      cases hb : (r && c) <;> simp_all
    refine ⟨?_, ?_, ?_⟩
    · simp [execute_action, hrc2]
    · intro _; simp [execute_action, hrc2]
    · intro msg h; rw [h] at hrc2; simp at hrc2

/-- C3 (witness): on a raising executor with an active agent, the call audits
once and returns a failed result carrying the error string. -/
theorem c3_execute_action_error_handling_witness :
    (execute_action
        { is_running := true, has_config := true
          specific := Except.error "boom" }
        ActionStatus.pending
        { actions_executed := 0, actions_successful := 0, actions_failed := 0
          avg_execution_time := 0 } 1).auditLogs = 1 ∧
    (execute_action
        { is_running := true, has_config := true
          specific := Except.error "boom" }
        ActionStatus.pending
        { actions_executed := 0, actions_successful := 0, actions_failed := 0
          avg_execution_time := 0 } 1).result.success = false :=
  ⟨(c3_execute_action_error_handling
      { is_running := true, has_config := true
        specific := Except.error "boom" }
      ActionStatus.pending
      { actions_executed := 0, actions_successful := 0, actions_failed := 0
        avg_execution_time := 0 } 1).1,
   ((c3_execute_action_error_handling
      { is_running := true, has_config := true
        specific := Except.error "boom" }
      ActionStatus.pending
      { actions_executed := 0, actions_successful := 0, actions_failed := 0
        avg_execution_time := 0 } 1).2.2 "boom" rfl rfl).1⟩

/-- C4 (counterexample): on the internal-exception path the running average is
not updated: with zero prior calls and a measured time of 1 second the claim
demands the new average `(0 * 0 + 1) / 1 = 1`, but the code leaves it at 0. -/
theorem c4_metrics_counterexample :
    (execute_action
        { is_running := false, has_config := true
          specific := Except.ok { success := true, message := "" } }
        ActionStatus.pending
        { actions_executed := 0, actions_successful := 0, actions_failed := 0
          avg_execution_time := 0 } 1).metrics.avg_execution_time = 0 ∧
    updatedAvg 0 (0 + 1) 1 = 1 ∧ (0 : ℚ) ≠ 1 := by
  refine ⟨rfl, ?_, by norm_num⟩
  norm_num [updatedAvg]

/-- C4 (amended): every `execute_action` call increments `actions_executed` by
exactly one and exactly one of `actions_successful` / `actions_failed` by one;
the running average is updated to `(avg * (n - 1) + sample) / n` only when the
try block runs to completion, and is left unchanged on the internal-exception
path. -/
theorem c4_metrics_amended (env : ExecEnv) (s0 : ActionStatus) (m : Metrics)
    (sample : ℚ) :
    (execute_action env s0 m sample).metrics.actions_executed =
      m.actions_executed + 1 ∧
    (((execute_action env s0 m sample).metrics.actions_successful =
        m.actions_successful + 1 ∧
      (execute_action env s0 m sample).metrics.actions_failed =
        m.actions_failed) ∨
     ((execute_action env s0 m sample).metrics.actions_failed =
        m.actions_failed + 1 ∧
      (execute_action env s0 m sample).metrics.actions_successful =
        m.actions_successful)) ∧
    (execOk env = true →
      (execute_action env s0 m sample).metrics.avg_execution_time =
        updatedAvg m.avg_execution_time (m.actions_executed + 1) sample) ∧
    (execOk env = false →
      (execute_action env s0 m sample).metrics.avg_execution_time =
        m.avg_execution_time) := by
  rcases env with ⟨r, c, sp⟩
  by_cases hrc : (r && c) = true
  · cases sp with
    | ok result =>
        cases hres : result.success <;>
          simp [execute_action, execOk, hrc, hres]
    | error msg =>
        simp [execute_action, execOk, hrc]
  · have hrc2 : (r && c) = false := by
      cases hb : (r && c) <;> simp_all
    rcases sp with result | msg <;>
      simp [execute_action, execOk, hrc2]

/-- C4 (witness for the amended theorem): a normally completing call updates
the running average by the specified formula. -/
theorem c4_metrics_amended_witness :
    execOk
      { is_running := true, has_config := true
        specific := Except.ok { success := true, message := "" } } = true ∧
    (execute_action
        { is_running := true, has_config := true
          specific := Except.ok { success := true, message := "" } }
        ActionStatus.pending
        { actions_executed := 0, actions_successful := 0, actions_failed := 0
          avg_execution_time := 0 } 2).metrics.avg_execution_time =
      updatedAvg 0 (0 + 1) 2 :=
  ⟨rfl,
    (c4_metrics_amended
      { is_running := true, has_config := true
        specific := Except.ok { success := true, message := "" } }
      ActionStatus.pending
      { actions_executed := 0, actions_successful := 0, actions_failed := 0
        avg_execution_time := 0 } 2).2.2.1 rfl⟩

/-- C2: `escalate_incident` sets the escalated flag, records the reason and an
escalation timestamp in the incident metadata, sends one notification through
each of the fixed channels slack, email, pagerduty, and reports overall
success exactly when some notification succeeded; an incident already flagged
escalated is left untouched by the escalation sweep. -/
theorem c2_escalate_incident (inc : Incident) (reason : String) (now : ℤ) :
    (escalate_incident inc reason now).1.escalated = true ∧
    (escalate_incident inc reason now).1.metadata.escalation_reason =
      some reason ∧
    (escalate_incident inc reason now).1.metadata.escalated_at = some now ∧
    ((escalate_incident inc reason now).2.notifications_sent.map
        fun n => n.channel) = ["slack", "email", "pagerduty"] ∧
    ((escalate_incident inc reason now).2.success = true ↔
      ∃ n ∈ (escalate_incident inc reason now).2.notifications_sent,
        n.success = true) ∧
    (∀ (later : ℤ) (j : Incident), j.escalated = true →
      check_incident_for_escalation later j = j) := by
  refine ⟨rfl, rfl, rfl, rfl, ?_, ?_⟩
  · simp [escalate_incident, send_escalation_notifications,
      notificationChannels]
  · intro later j hj
    simp [check_incident_for_escalation, hj]

/-- C2 (witness): the sweep leaves an escalated incident unchanged, and a
concrete escalation sets the flag. -/
theorem c2_escalate_incident_witness :
    check_incident_for_escalation 0 escalatedIncident = escalatedIncident ∧
    (escalate_incident sampleIncident "attempts exhausted" 5).1.escalated =
      true :=
  ⟨(c2_escalate_incident sampleIncident "attempts exhausted" 5).2.2.2.2.2 0
      escalatedIncident rfl,
   (c2_escalate_incident sampleIncident "attempts exhausted" 5).1⟩

/-- C8: `perform_health_check` derives the overall status as the claim states:
offline when no checks ran, healthy when none failed, degraded when the
failed count is at most half the total (the code comparison
`k <= n // 2` coincides with `2 * k <= n`), and unhealthy otherwise. -/
theorem c8_health_status (outcomes : List (Except String HealthCheckResult)) :
    perform_health_check outcomes =
      (if (collectCheckResults outcomes).length = 0 then AgentStatus.offline
       else if ((collectCheckResults outcomes).filter
          fun r => !r.passed).length = 0 then AgentStatus.healthy
       else if 2 * ((collectCheckResults outcomes).filter
          fun r => !r.passed).length ≤ (collectCheckResults outcomes).length
          then AgentStatus.degraded
       else AgentStatus.unhealthy) := by
  simp only [perform_health_check, derive_health_status]
  split_ifs <;> first | rfl | omega

/-- `groupsOf` on the empty list. -/
theorem groupsOf_nil (window : ℤ) : groupsOf window [] = [] := by
  rw [groupsOf.eq_def]

/-- `groupsOf` on a nonempty list: the head group and the groups of the
remainder. -/
theorem groupsOf_cons (window : ℤ) (a : Alert) (rest : List Alert) :
    groupsOf window (a :: rest) =
      (a :: rest.takeWhile fun b =>
          decide (b.timestamp - a.timestamp ≤ window)) ::
        groupsOf window
          (rest.dropWhile fun b =>
            decide (b.timestamp - a.timestamp ≤ window)) := by
  rw [groupsOf.eq_def]

/-- The grouping loop emits the accumulated groups, then the current group
extended by the alerts within `window` of the current window start, then the
groups of the remainder — each subsequent group compared against its own
head. -/
theorem groupLoop_eq (window : ℤ) (rest : List Alert) :
    ∀ (winStart : ℤ) (cur : List Alert) (groups : List (List Alert)),
      groupLoop window winStart cur groups rest =
        groups ++
          ((cur ++ rest.takeWhile fun b =>
              decide (b.timestamp - winStart ≤ window)) ::
            groupsOf window
              (rest.dropWhile fun b =>
                decide (b.timestamp - winStart ≤ window))) := by
  induction rest with
  | nil =>
      intro winStart cur groups
      simp [groupLoop, groupsOf_nil]
  | cons a rest ih =>
      intro winStart cur groups
      by_cases h : a.timestamp - winStart ≤ window
      · have h2 : a.timestamp ≤ window + winStart := by omega
        rw [groupLoop, if_pos h, ih]
        simp [List.takeWhile_cons, List.dropWhile_cons, h2]
      · have h2 : ¬ a.timestamp ≤ window + winStart := by omega
        rw [groupLoop, if_neg h, ih]
        simp [List.takeWhile_cons, List.dropWhile_cons, h2, groupsOf_cons]

/-- C5: the time partition of `AlertCorrelator._group_alerts_by_time` sorts by
timestamp and then opens a new group exactly when an alert exceeds the current
group head timestamp plus the window (`groupsOf`), and on alerts at t, t+5min,
t+20min with the default 15-minute window it yields exactly the groups
{t, t+5min} and {t+20min}. -/
theorem c5_time_grouping :
    (∀ (window : ℤ) (alerts : List Alert),
      group_alerts_by_time window alerts = groupsOf window (sortAlerts alerts)) ∧
    group_alerts_by_time correlationWindow
        [sampleAlert "a1" 0, sampleAlert "a2" 300, sampleAlert "a3" 1200] =
      [[sampleAlert "a1" 0, sampleAlert "a2" 300], [sampleAlert "a3" 1200]] := by
  constructor
  · intro window alerts
    unfold group_alerts_by_time
    cases h : sortAlerts alerts with
    | nil => simp [groupsOf_nil]
    | cons a rest =>
        show groupLoop window a.timestamp [a] [] rest =
          groupsOf window (a :: rest)
        rw [groupLoop_eq, groupsOf_cons]
        simp
  · decide

/-- C6: the success-criteria evaluation counts the criteria strings containing
(case-insensitively) one of the keywords running/ready, latency/usage,
error/logs, and succeeds exactly when the matched fraction reaches 0.7, an
empty list counting as success; on the catalog criteria of
`resource_exhaustion_basic` exactly 2 of 3 strings match and the result is
failure. -/
theorem c6_success_criteria :
    (∀ criteria : List String,
      check_success_criteria criteria = true ↔
        (criteria = [] ∨
          (7 : ℚ) / 10 ≤
            (criteria.countP criterionMatches : ℚ) / (criteria.length : ℚ))) ∧
    criterionMatches "Memory usage below 80%" = true ∧
    criterionMatches "Disk usage below 85%" = true ∧
    criterionMatches "Service is responsive" = false ∧
    check_success_criteria
      ["Memory usage below 80%", "Disk usage below 85%",
       "Service is responsive"] = false ∧
    check_success_criteria [] = true := by
  have h1 : criterionMatches "Memory usage below 80%" = true := by decide
  have h2 : criterionMatches "Disk usage below 85%" = true := by decide
  have h3 : criterionMatches "Service is responsive" = false := by decide
  refine ⟨?_, h1, h2, h3, ?_, ?_⟩
  · intro criteria
    cases criteria with
    | nil => norm_num [check_success_criteria]
    | cons c rest => simp [check_success_criteria]
  · simp only [check_success_criteria, List.countP_cons, List.countP_nil,
      h1, h2, h3, List.isEmpty_cons, List.length_cons, List.length_nil]
    norm_num
  · norm_num [check_success_criteria]

/-- The Python `max(_, key=...)` fold stays within the candidate list. -/
theorem foldlMaxSeverity_mem (l : List Alert) :
    ∀ acc : Alert,
      l.foldl (fun best b =>
        if severityRank best.severity < severityRank b.severity then b
        else best) acc ∈ acc :: l := by
  induction l with
  | nil => intro acc; simp
  | cons b l ih =>
      intro acc
      simp only [List.foldl_cons]
      by_cases hb : severityRank acc.severity < severityRank b.severity
      · rw [if_pos hb]
        exact List.mem_cons_of_mem _ (ih b)
      · rw [if_neg hb]
        rcases List.mem_cons.mp (ih acc) with h | h
        · rw [h]; exact List.mem_cons_self _ _
        · exact List.mem_cons_of_mem _ (List.mem_cons_of_mem _ h)

/-- The Python `max(_, key=...)` fold dominates every candidate. -/
theorem foldlMaxSeverity_le (l : List Alert) :
    ∀ acc c : Alert, c ∈ acc :: l →
      severityRank c.severity ≤
        severityRank (l.foldl (fun best b =>
          if severityRank best.severity < severityRank b.severity then b
          else best) acc).severity := by
  induction l with
  | nil =>
      intro acc c hc
      rcases List.mem_cons.mp hc with h | h
      · rw [h]; exact Nat.le_refl _
      · exact absurd h (List.not_mem_nil c)
  | cons b l ih =>
      intro acc c hc
      simp only [List.foldl_cons]
      by_cases hab : severityRank acc.severity < severityRank b.severity
      · rw [if_pos hab]
        rcases List.mem_cons.mp hc with h | h
        · rw [h]
          exact le_trans (le_of_lt hab) (ih b b (List.mem_cons_self _ _))
        · exact ih b c h
      · rw [if_neg hab]
        rcases List.mem_cons.mp hc with h | h
        · rw [h]; exact ih acc acc (List.mem_cons_self _ _)
        · rcases List.mem_cons.mp h with h2 | h2
          · rw [h2]
            exact le_trans (Nat.le_of_not_lt hab)
              (ih acc acc (List.mem_cons_self _ _))
          · exact ih acc c (List.mem_cons_of_mem _ h2)

/-- The Python `min` fold is a lower bound. -/
theorem foldlMin_le (l : List Alert) :
    ∀ x : ℤ, l.foldl (fun m b => min m b.timestamp) x ≤ x ∧
      ∀ b ∈ l, l.foldl (fun m b => min m b.timestamp) x ≤ b.timestamp := by
  induction l with
  | nil => intro x; simp
  | cons b l ih =>
      intro x
      simp only [List.foldl_cons]
      obtain ⟨h1, h2⟩ := ih (min x b.timestamp)
      refine ⟨le_trans h1 (min_le_left _ _), ?_⟩
      intro d hd
      rcases List.mem_cons.mp hd with h | h
      · rw [h]; exact le_trans h1 (min_le_right _ _)
      · exact h2 d h

/-- The Python `min` fold attains its value at the seed or at some element. -/
theorem foldlMin_mem (l : List Alert) :
    ∀ x : ℤ, l.foldl (fun m b => min m b.timestamp) x = x ∨
      ∃ b ∈ l, l.foldl (fun m b => min m b.timestamp) x = b.timestamp := by
  induction l with
  | nil => intro x; left; rfl
  | cons b l ih =>
      intro x
      simp only [List.foldl_cons]
      rcases ih (min x b.timestamp) with h | ⟨d, hd, h⟩
      · rcases le_total x b.timestamp with hle | hle
        · left; rw [h, min_eq_left hle]
        · right
          exact ⟨b, List.mem_cons_self _ _, by rw [h, min_eq_right hle]⟩
      · right; exact ⟨d, List.mem_cons_of_mem _ hd, h⟩

/-- Membership in the per-alert resource contribution. -/
theorem mem_alertResources (al : Alert) (r : String) :
    r ∈ alertResources al ↔
      al.labels.lookup "resource" = some r ∨
        al.labels.lookup "service" = some r := by
  unfold alertResources
  rcases h1 : al.labels.lookup "resource" with _ | x <;>
    rcases h2 : al.labels.lookup "service" with _ | y <;>
      simp [eq_comm]

/-- Membership in the deduplicated affected-resource list. -/
theorem mem_affectedResourcesOf (alerts : List Alert) (r : String) :
    r ∈ affectedResourcesOf alerts ↔
      ∃ c ∈ alerts, c.labels.lookup "resource" = some r ∨
        c.labels.lookup "service" = some r := by
  unfold affectedResourcesOf
  simp [List.mem_dedup, List.mem_flatMap, mem_alertResources]

/-- C7: an incident built from a nonempty alert list carries the constituent
alerts and their count, the severity of a maximal-rank alert, the earliest
alert timestamp as detection time, the deduplicated union of `resource` and
`service` label values as affected resources, and, for a multi-alert incident,
a title naming at most the first three sources (with a count suffix when more
exist) and a description naming at most the first three alerts likewise. -/
theorem c7_incident_construction (now : ℤ) (a : Alert) (rest : List Alert) :
    ∃ inc, create_incident_from_alerts now (a :: rest) = some inc ∧
      inc.alerts = a :: rest ∧
      inc.metadata.alert_count = some (a :: rest).length ∧
      (∃ b ∈ a :: rest, inc.severity = b.severity ∧
        ∀ c ∈ a :: rest,
          severityRank c.severity ≤ severityRank b.severity) ∧
      ((∃ b ∈ a :: rest, inc.detected_at = b.timestamp) ∧
        ∀ c ∈ a :: rest, inc.detected_at ≤ c.timestamp) ∧
      inc.affected_resources.Nodup ∧
      (∀ r, r ∈ inc.affected_resources ↔
        ∃ c ∈ a :: rest,
          c.labels.lookup "resource" = some r ∨
            c.labels.lookup "service" = some r) ∧
      (rest ≠ [] → (sourcesOf (a :: rest)).length ≤ 3 →
        inc.title =
          "Multiple alerts from " ++
            String.intercalate ", " (sourcesOf (a :: rest))) ∧
      (rest ≠ [] → 3 < (sourcesOf (a :: rest)).length →
        inc.title =
          "Multiple alerts from " ++
            String.intercalate ", " ((sourcesOf (a :: rest)).take 3) ++
            " and " ++ toString ((sourcesOf (a :: rest)).length - 3) ++
            " more sources") ∧
      (rest ≠ [] →
        inc.description =
          "Correlated incident from " ++ toString (a :: rest).length ++
            " alerts: " ++
            String.intercalate "; "
              (((a :: rest).take 3).map fun al =>
                al.source ++ ": " ++ al.title) ++
            (if 3 < (a :: rest).length then
              " and " ++ toString ((a :: rest).length - 3) ++ " more alerts"
            else "")) := by
  refine ⟨_, rfl, rfl, rfl, ?_, ⟨?_, ?_⟩, ?_, ?_, ?_, ?_, ?_⟩
  · exact ⟨maxBySeverity a rest, foldlMaxSeverity_mem rest a, rfl,
      fun c hc => foldlMaxSeverity_le rest a c hc⟩
  · rcases foldlMin_mem rest a.timestamp with h | ⟨b, hb, h⟩
    · exact ⟨a, List.mem_cons_self _ _, h⟩
    · exact ⟨b, List.mem_cons_of_mem _ hb, h⟩
  · intro c hc
    rcases List.mem_cons.mp hc with h | h
    · rw [h]
      exact (foldlMin_le rest a.timestamp).1
    · exact (foldlMin_le rest a.timestamp).2 c h
  · exact List.nodup_dedup _
  · intro r
    exact mem_affectedResourcesOf (a :: rest) r
  · intro hne hlen
    cases rest with
    | nil => exact absurd rfl hne
    | cons b tl =>
        show (if ((a :: b :: tl).length == 1) = true then a.title
          else "Multiple alerts from " ++
            String.intercalate ", " ((sourcesOf (a :: b :: tl)).take 3) ++
            (if 3 < (sourcesOf (a :: b :: tl)).length then
              " and " ++ toString ((sourcesOf (a :: b :: tl)).length - 3) ++
                " more sources"
            else "")) = _
        rw [if_neg (by simp), if_neg (by omega),
          List.take_of_length_le hlen]
        simp
  · intro hne hlen
    cases rest with
    | nil => exact absurd rfl hne
    | cons b tl =>
        show (if ((a :: b :: tl).length == 1) = true then a.title
          else "Multiple alerts from " ++
            String.intercalate ", " ((sourcesOf (a :: b :: tl)).take 3) ++
            (if 3 < (sourcesOf (a :: b :: tl)).length then
              " and " ++ toString ((sourcesOf (a :: b :: tl)).length - 3) ++
                " more sources"
            else "")) = _
        rw [if_neg (by simp), if_pos hlen]
        simp [String.append_assoc]
  · intro hne
    cases rest with
    | nil => exact absurd rfl hne
    | cons b tl =>
        show (if ((a :: b :: tl).length == 1) = true then a.description
          else "Correlated incident from " ++
            toString (a :: b :: tl).length ++ " alerts: " ++
            String.intercalate "; "
              (((a :: b :: tl).take 3).map fun al =>
                al.source ++ ": " ++ al.title) ++
            (if 3 < (a :: b :: tl).length then
              " and " ++ toString ((a :: b :: tl).length - 3) ++
                " more alerts"
            else "")) = _
        rw [if_neg (by simp)]

/-- C7 (witness): on two concrete alerts the multi-alert title names the
deduplicated sources. -/
theorem c7_incident_construction_witness :
    ∃ inc, create_incident_from_alerts 0
        [sampleAlert "w1" 0, sampleAlert "w2" 60] = some inc ∧
      inc.title = "Multiple alerts from " ++
        String.intercalate ", "
          (sourcesOf [sampleAlert "w1" 0, sampleAlert "w2" 60]) := by
  obtain ⟨inc, heq, _, _, _, _, _, _, ht, _, _⟩ :=
    c7_incident_construction 0 (sampleAlert "w1" 0) [sampleAlert "w2" 60]
  exact ⟨inc, heq, ht (by simp) (by decide)⟩

/-- C9: the overall success flag of `execute_runbook` equals the
success-criteria check of the runbook and therefore depends only on the
criteria strings, never on the per-step results; concretely, a runbook whose
criteria all match reports success even though its only (critical) step
failed and rollback was performed. -/
theorem c9_success_from_criteria_only :
    (∀ (runStep : Step → Bool) (rb : Runbook) (incId execId : String),
      (execute_runbook runStep rb incId execId).success =
        check_success_criteria rb.success_criteria) ∧
    (execute_runbook (fun _ => false) criticalDemoRunbook "i1" "e1"
      ).rollback_performed = true ∧
    (execute_runbook (fun _ => false) criticalDemoRunbook "i1" "e1"
      ).success = true := by
  have h1 : criterionMatches "Average latency below threshold" = true := by
    decide
  have h2 : criterionMatches "All pods are ready" = true := by decide
  have h3 : criterionMatches "CPU usage normalized" = true := by decide
  have hc : check_success_criteria criticalDemoRunbook.success_criteria =
      true := by
    simp only [criticalDemoRunbook, check_success_criteria, List.countP_cons,
      List.countP_nil, h1, h2, h3, List.isEmpty_cons, List.length_cons,
      List.length_nil]
    norm_num
  exact ⟨fun runStep rb incId execId => rfl, rfl, hc⟩

/-- The step loop reports a rollback-triggering stop exactly when some step is
critical and fails. -/
theorem runSteps_flag (runStep : Step → Bool) (steps : List Step) :
    ∀ acc, (runSteps runStep acc steps).2 =
      steps.any fun s => !runStep s && s.critical := by
  induction steps with
  | nil => intro acc; simp [runSteps]
  | cons s rest ih =>
      intro acc
      cases hr : runStep s
      · cases hcrit : s.critical
        · simp [runSteps, executeStep, hr, hcrit, ih]
        · simp [runSteps, executeStep, hr, hcrit]
      · simp [runSteps, executeStep, hr, ih]

/-- C10: when a critical step fails and the runbook declares no rollback
steps, the execution result still reports `rollback_performed = true` while
the `rollback_steps` key is never added (the rollback routine returns
immediately). -/
theorem c10_empty_rollback (runStep : Step → Bool) (rb : Runbook)
    (incId execId : String) (h1 : rb.rollback_steps = [])
    (h2 : ∃ s ∈ rb.steps, s.critical = true ∧ runStep s = false) :
    (execute_runbook runStep rb incId execId).rollback_performed = true ∧
    (execute_runbook runStep rb incId execId).rollback_steps = none := by
  have hflag : (runSteps runStep [] rb.steps).2 = true := by
    rw [runSteps_flag, List.any_eq_true]
    obtain ⟨s, hs, hc, hf⟩ := h2
    exact ⟨s, hs, by simp [hc, hf]⟩
  simp [execute_runbook, perform_rollback, hflag, h1]

/-- C10 (witness): the demo runbook with its failing critical step and empty
rollback list. -/
theorem c10_empty_rollback_witness :
    (execute_runbook (fun _ => false) criticalDemoRunbook "i2" "e2"
      ).rollback_performed = true ∧
    (execute_runbook (fun _ => false) criticalDemoRunbook "i2" "e2"
      ).rollback_steps = none :=
  c10_empty_rollback (fun _ => false) criticalDemoRunbook "i2" "e2" rfl
    ⟨{ type := "scale_up", description := "Scale up the service"
       command := "kubectl scale deployment/{service_name} --replicas={target_replicas}"
       timeout := 180, critical := true },
     by simp [criticalDemoRunbook], rfl, rfl⟩

end Opula
